import Mathlib

/-!
Shallow embedding of the API-token subsystem of `stp-database`:
the model `stp_database/models/Backend/tokens.py` (classes `ApiToken`,
`ApiTokenAuditLog`) and the repository `stp_database/repo/Backend/tokens.py`
(class `ApiTokenRepo`).

Modelling conventions:
* `datetime` values are integers (seconds); `timedelta(days=d)` is `d * 86400`.
* Permission documents and JSON payloads are `PyVal`, a Python-value tree.
* The database session is a committed store `DB` plus a schedule of storage
  faults (`Sess.faults`): each `session.execute` / `session.commit` consumes the
  next flag, and `true` means the call raises `SQLAlchemyError` (the schedule
  empty means no fault).  `session.refresh` and `session.add` are pure in this
  model (`add` only stages the object; `refresh` re-reads what was committed).
* `secrets.token_bytes` is nondeterministic, so the generated raw token is an
  explicit input, and the SHA-256 digest `_hash_token` is an arbitrary function
  parameter `hash_token`; the claims depend only on digest equality.
-/

namespace StpDatabase

/-- A Python value, as stored in the JSON `permissions` / `extra_metadata`
columns and manipulated by `check_permission`.  A `dict` is a finite list of
string-keyed entries (Python dict keys are unique; lookup takes the first
match). -/
inductive PyVal where
  | none
  | bool (b : Bool)
  | int (n : Int)
  | str (s : String)
  | list (items : List PyVal)
  | dict (entries : List (String × PyVal))

/-- Association lookup in a Python dict's entry list. -/
def PyVal.lookup (entries : List (String × PyVal)) (k : String) : Option PyVal :=
  match entries.find? (fun e => e.1 == k) with
  | Option.some e => Option.some e.2
  | Option.none => Option.none

/-- Python's `d.get(key, default)`: returns the stored value (which may itself
be `None`) when the key is present, the default when absent, and raises
`AttributeError` when the receiver is not a dict. -/
def PyVal.getD (v : PyVal) (k : String) (dflt : PyVal) : Except String PyVal :=
  match v with
  | PyVal.dict entries =>
      match PyVal.lookup entries k with
      | Option.some x => Except.ok x
      | Option.none => Except.ok dflt
  | _ => Except.error "AttributeError"

/-- Is this value a Python dict? -/
def PyVal.isDict : PyVal → Bool
  | PyVal.dict _ => true
  | _ => false

/-- The shapes `check_permission` recognises for a resource permission value:
`None`, a boolean, a string, or a list.  Anything else falls through to the
final `return False`. -/
def PyVal.isPermShape : PyVal → Bool
  | PyVal.none => true
  | PyVal.bool _ => true
  | PyVal.str _ => true
  | PyVal.list _ => true
  | _ => false

/-- Python `v == s` for a string literal `s`: true only when `v` is the equal
string (Python equality across these types is false otherwise). -/
def py_eq_str (v : PyVal) (s : String) : Bool :=
  match v with
  | PyVal.str t => t == s
  | _ => false

/-- Python `s in items` for a string `s` and a list value. -/
def py_str_in (items : List PyVal) (s : String) : Bool :=
  items.any (fun v => py_eq_str v s)

/-- Python `v is True`: identity with the singleton `True`, so true only for
the boolean value `True` itself (not for truthy ints or strings). -/
def py_is_true (v : PyVal) : Bool :=
  match v with
  | PyVal.bool true => true
  | _ => false

/-- `ApiTokenRepo.check_permission` (repo/Backend/tokens.py lines 270-308).
The token's `permissions` document is passed in; the result is `Except.error`
exactly where the Python code would raise (`.get` on a non-dict receiver
raises `AttributeError`). -/
def check_permission (permissions : PyVal) (resource action : String) :
    Except String Bool :=
  match PyVal.getD permissions "admin" PyVal.none with
  | Except.error e => Except.error e
  | Except.ok admin =>
    if py_is_true admin then Except.ok true
    else
      match PyVal.getD permissions "resources" (PyVal.dict []) with
      | Except.error e => Except.error e
      | Except.ok resources =>
        match PyVal.getD resources resource PyVal.none with
        | Except.error e => Except.error e
        | Except.ok resource_perm =>
          match resource_perm with
          | PyVal.none => Except.ok false
          | PyVal.bool false => Except.ok false
          | PyVal.bool true => Except.ok true
          | PyVal.str s => Except.ok (s == action)
          | PyVal.list items => Except.ok (py_str_in items action)
          | _ => Except.ok false

/-- `timedelta(days=d)` in seconds. -/
def timedelta_days (d : Int) : Int :=
  d * 86400

/-- Row of the `tokens` table (`ApiToken`,
models/Backend/tokens.py lines 16-111).  `created_at` is the server-side
insertion timestamp. -/
structure ApiToken where
  id : Nat
  token_hash : String
  employee_id : Int
  name : String
  description : Option String
  is_active : Bool
  is_revoked : Bool
  expires_at : Option Int
  last_used_at : Option Int
  permissions : PyVal
  created_by : Option Int
  created_at : Int

/-- Row of the `token_audit_logs` table (`ApiTokenAuditLog`,
models/Backend/tokens.py lines 114-185).  `token_id` is a non-nullable
foreign key onto `tokens.id` with `ondelete="CASCADE"`; the structured
payload column is named `extra_metadata`. -/
structure ApiTokenAuditLog where
  id : Nat
  token_id : Nat
  action : String
  ip_address : Option String
  user_agent : Option String
  endpoint : Option String
  success : Bool
  error_message : Option String
  extra_metadata : Option PyVal
  created_at : Int

/-- The committed database state: the two tables plus the id sequences. -/
structure DB where
  tokens : List ApiToken
  audit_logs : List ApiTokenAuditLog
  next_token_id : Nat
  next_audit_id : Nat

/-- A session: the committed store plus the storage-fault schedule.  Each
`session.execute` / `session.commit` consumes the next flag; `true` means
that call raises `SQLAlchemyError`. -/
structure Sess where
  db : DB
  faults : List Bool

/-- Consume the next fault flag (an exhausted schedule never faults). -/
def takeFault (s : Sess) : Bool × Sess :=
  match s.faults with
  | [] => (false, s)
  | f :: rest => (f, { s with faults := rest })

/-- Commit an updated row of the `tokens` table (the ORM mutates the row with
this primary key in place). -/
def update_token (l : List ApiToken) (tid : Nat) (t' : ApiToken) :
    List ApiToken :=
  l.map (fun u => if u.id == tid then t' else u)

/-- The expiry test of `validate_token` (line 133):
`token.expires_at and token.expires_at < datetime.now()` — a `datetime` is
always truthy, so this is "has an expiry and it is before now". -/
def token_expired (t : ApiToken) (now : Int) : Bool :=
  match t.expires_at with
  | Option.some e => decide (e < now)
  | Option.none => false

/-- The SQL comparison `expires_at < cutoff` (NULL compares to nothing). -/
def expires_before (t : ApiToken) (cutoff : Int) : Bool :=
  match t.expires_at with
  | Option.some e => decide (e < cutoff)
  | Option.none => false

/-- `ApiTokenRepo._create_audit_log` (lines 400-448).  When `token_id` is
`None` the helper returns `None` before touching storage (lines 426-428), so
no record is ever written without token attribution.  The record is
constructed with the keyword `metadata=`, but the mapped payload column of
`ApiTokenAuditLog` is `extra_metadata` (models/Backend/tokens.py line 171)
and the model has no `metadata` column — the declarative constructor binds
the value to a non-mapped attribute, so the persisted row's `extra_metadata`
stays null whatever `metadata` was passed.  The insert's commit consumes one
fault flag; on fault the helper rolls back and returns `None`. -/
def create_audit_log (s : Sess) (token_id : Option Nat) (action : String)
    (success : Bool) (error_message : Option String)
    (ip_address : Option String) (user_agent : Option String)
    (endpoint : Option String) (metadata : Option PyVal) (now : Int) :
    Option ApiTokenAuditLog × Sess :=
  match token_id with
  | Option.none => (Option.none, s)
  | Option.some tid =>
      let log : ApiTokenAuditLog :=
        { id := s.db.next_audit_id, token_id := tid, action := action,
          ip_address := ip_address, user_agent := user_agent,
          endpoint := endpoint, success := success,
          error_message := error_message,
          extra_metadata := Option.none, created_at := now }
      let fs := takeFault s
      if fs.1 then (Option.none, fs.2)
      else
        (Option.some log,
          { fs.2 with db := { fs.2.db with
              audit_logs := fs.2.db.audit_logs ++ [log],
              next_audit_id := fs.2.db.next_audit_id + 1 } })

/-- `ApiTokenRepo.create_token` (lines 20-86).  `raw_token` is the value the
CSPRNG produced (`_generate_token`); `hash_token` is the digest function
`_hash_token`.  The token insert's commit consumes one fault flag: on fault
everything is rolled back and `None` returned (lines 83-86).  After a
successful commit the audit insert is a second, separate commit inside
`_create_audit_log`, whose failure is swallowed there — `create_token` still
returns the pair. -/
def create_token (hash_token : String → String) (s : Sess)
    (employee_id : Int) (name : String) (description : Option String)
    (expires_in_days : Option Int) (permissions : Option PyVal)
    (created_by : Option Int) (raw_token : String) (now : Int) :
    Option (String × ApiToken) × Sess :=
  let token_hash := hash_token raw_token
  let expires_at := expires_in_days.map (fun d => now + timedelta_days d)
  let perms := permissions.getD (PyVal.dict [])
  let new_token : ApiToken :=
    { id := s.db.next_token_id, token_hash := token_hash,
      employee_id := employee_id, name := name, description := description,
      is_active := true, is_revoked := false, expires_at := expires_at,
      last_used_at := Option.none, permissions := perms,
      created_by := created_by, created_at := now }
  let fs := takeFault s
  if fs.1 then (Option.none, fs.2)
  else
    let s2 : Sess := { fs.2 with db := { fs.2.db with
        tokens := fs.2.db.tokens ++ [new_token],
        next_token_id := fs.2.db.next_token_id + 1 } }
    let ls := create_audit_log s2 (Option.some new_token.id) "token_created"
        true Option.none Option.none Option.none Option.none Option.none now
    (Option.some (raw_token, new_token), ls.2)

/-- `ApiTokenRepo.validate_token` (lines 88-163).  The select consumes one
fault flag; a fault is caught and surfaced as `None` (lines 161-163).  The
lookup filters on `token_hash == digest AND is_active` only (`token_hash` is
unique, so `scalar_one_or_none` is the first match).  On the not-found branch
the audit helper is called with `token_id=None`; on the expired branch with
the token's id and the message "Токен истек"; on success `last_used_at` is
set and committed (one fault flag), then a `token_used` record is written. -/
def validate_token (hash_token : String → String) (s : Sess)
    (raw_token : String) (ip_address : Option String)
    (user_agent : Option String) (endpoint : Option String) (now : Int) :
    Option ApiToken × Sess :=
  let token_hash := hash_token raw_token
  let fs := takeFault s
  if fs.1 then (Option.none, fs.2)
  else
    match fs.2.db.tokens.find?
        (fun t => t.token_hash == token_hash && t.is_active) with
    | Option.none =>
        let ls := create_audit_log fs.2 Option.none "token_validation_failed"
            false (Option.some "Токен не найден или неактивен") ip_address
            user_agent endpoint Option.none now
        (Option.none, ls.2)
    | Option.some token =>
        if token_expired token now then
          let ls := create_audit_log fs.2 (Option.some token.id)
              "token_validation_failed" false (Option.some "Токен истек")
              ip_address user_agent endpoint Option.none now
          (Option.none, ls.2)
        else
          let fs2 := takeFault fs.2
          if fs2.1 then (Option.none, fs2.2)
          else
            let token' := { token with last_used_at := Option.some now }
            let s3 : Sess := { fs2.2 with db := { fs2.2.db with
                tokens := update_token fs2.2.db.tokens token.id token' } }
            let ls := create_audit_log s3 (Option.some token.id) "token_used"
                true Option.none ip_address user_agent endpoint Option.none
                now
            (Option.some token', ls.2)

/-- `ApiTokenRepo.revoke_token` (lines 165-200).  The select consumes one
fault flag; a missing token returns `False` with no audit write; otherwise
`is_active` is set to `False`, committed (one fault flag), a `token_revoked`
record is written, and `True` is returned.  Nothing filters on the current
`is_active` value, so an already-inactive token is revoked again
identically. -/
def revoke_token (s : Sess) (token_id : Nat) (now : Int) : Bool × Sess :=
  let fs := takeFault s
  if fs.1 then (false, fs.2)
  else
    match fs.2.db.tokens.find? (fun t => t.id == token_id) with
    | Option.none => (false, fs.2)
    | Option.some token =>
        let fs2 := takeFault fs.2
        if fs2.1 then (false, fs2.2)
        else
          let token' := { token with is_active := false }
          let s3 : Sess := { fs2.2 with db := { fs2.2.db with
              tokens := update_token fs2.2.db.tokens token.id token' } }
          let ls := create_audit_log s3 (Option.some token.id) "token_revoked"
              true Option.none Option.none Option.none Option.none
              Option.none now
          (true, ls.2)

/-- `ApiTokenRepo.extend_token` (lines 202-246).  The select consumes one
fault flag; a missing token returns `None`; otherwise `expires_at` becomes
`now + days` when it was null and `expires_at + days` otherwise, the change
is committed (one fault flag), and a `token_extended` record is written with
`metadata={"days": days}` — which, per `create_audit_log`, never reaches the
persisted `extra_metadata` column. -/
def extend_token (s : Sess) (token_id : Nat) (days : Int) (now : Int) :
    Option ApiToken × Sess :=
  let fs := takeFault s
  if fs.1 then (Option.none, fs.2)
  else
    match fs.2.db.tokens.find? (fun t => t.id == token_id) with
    | Option.none => (Option.none, fs.2)
    | Option.some token =>
        let new_expires :=
          match token.expires_at with
          | Option.none => now + timedelta_days days
          | Option.some e => e + timedelta_days days
        let token' := { token with expires_at := Option.some new_expires }
        let fs2 := takeFault fs.2
        if fs2.1 then (Option.none, fs2.2)
        else
          let s3 : Sess := { fs2.2 with db := { fs2.2.db with
              tokens := update_token fs2.2.db.tokens token.id token' } }
          let ls := create_audit_log s3 (Option.some token.id)
              "token_extended" true Option.none Option.none Option.none
              Option.none
              (Option.some (PyVal.dict [("days", PyVal.int days)])) now
          (Option.some token', ls.2)

/-- `ApiTokenRepo.cleanup_expired_tokens` (lines 338-377).  The filter is
built as `and_(not ApiToken.is_active, ApiToken.expires_at < cutoff_date)`
(lines 353-358).  Python's `not` cannot be overloaded: it takes the
truthiness of the ORM column object, which is `True`, so the first conjunct
is the Python constant `False` and the emitted WHERE clause is
`FALSE AND expires_at < cutoff`, matching no row.  That constant `false` is
embedded literally below.  Deleting a token cascades to its audit records
(`ondelete="CASCADE"`); the commit only happens when something was
deleted. -/
def cleanup_expired_tokens (s : Sess) (days_inactive : Int) (now : Int) :
    Nat × Sess :=
  let cutoff_date := now - timedelta_days days_inactive
  let fs := takeFault s
  if fs.1 then (0, fs.2)
  else
    let to_delete := fs.2.db.tokens.filter
        (fun t => false && expires_before t cutoff_date)
    let deleted_count := to_delete.length
    if deleted_count > 0 then
      let fs2 := takeFault fs.2
      if fs2.1 then (0, fs2.2)
      else
        let kept := fs2.2.db.tokens.filter
            (fun t => !(false && expires_before t cutoff_date))
        let kept_ids := kept.map (fun t => t.id)
        (deleted_count,
          { fs2.2 with db := { fs2.2.db with
              tokens := kept,
              audit_logs := fs2.2.db.audit_logs.filter
                  (fun a => kept_ids.contains a.token_id) } })
    else (deleted_count, fs.2)

/-!
### Derived definition and concrete fixtures

`perm_eval` names the verdict `check_permission` assigns to a recognised
resource permission value; the fixtures below are the concrete stores used
by the closed theorems and witnesses.
-/

/-- The verdict `check_permission` assigns to a recognised resource
permission value: booleans grant/deny, a string grants on exact match, a
list grants on membership, anything else denies. -/
def perm_eval (v : PyVal) (action : String) : Bool :=
  match v with
  | PyVal.none => false
  | PyVal.bool b => b
  | PyVal.str s => s == action
  | PyVal.list items => py_str_in items action
  | _ => false

/-- An empty database with fresh id sequences. -/
def emptyDB : DB :=
  { tokens := [], audit_logs := [], next_token_id := 1, next_audit_id := 1 }

/-- A token the cleanup sweep is supposed to delete: inactive and expired
31 days before `now = 0`. -/
def token_c1 : ApiToken :=
  { id := 1, token_hash := "h1", employee_id := 7, name := "old",
    description := Option.none, is_active := false, is_revoked := false,
    expires_at := Option.some (-(31 * 86400)), last_used_at := Option.none,
    permissions := PyVal.dict [], created_by := Option.none, created_at := 0 }

/-- Store holding exactly the sweepable token, no pending faults. -/
def sess_c1 : Sess :=
  { db := { tokens := [token_c1], audit_logs := [], next_token_id := 2,
            next_audit_id := 1 },
    faults := [] }

/-- An empty fault-free session. -/
def sess_empty : Sess := { db := emptyDB, faults := [] }

/-- An empty session whose first storage call faults. -/
def sess_fault1 : Sess := { db := emptyDB, faults := [true] }

/-- An empty session where the first commit succeeds and the second faults. -/
def sess_c3 : Sess := { db := emptyDB, faults := [false, true] }

/-- An empty session scheduled to fault on the first storage call only. -/
def sess_c3w : Sess := { db := emptyDB, faults := [true, false] }

/-- A token with a concrete expiry, for the extension theorems. -/
def token_c7 : ApiToken :=
  { id := 1, token_hash := "h7", employee_id := 7, name := "t",
    description := Option.none, is_active := true, is_revoked := false,
    expires_at := Option.some 1000, last_used_at := Option.none,
    permissions := PyVal.dict [], created_by := Option.none, created_at := 0 }

/-- Store holding `token_c7`, no pending faults. -/
def sess_c7 : Sess :=
  { db := { tokens := [token_c7], audit_logs := [], next_token_id := 2,
            next_audit_id := 5 },
    faults := [] }

/-- An unbounded (`expires_at = None`) variant of `token_c7`. -/
def token_c7n : ApiToken := { token_c7 with expires_at := Option.none }

/-- Store holding the unbounded token. -/
def sess_c7n : Sess :=
  { db := { tokens := [token_c7n], audit_logs := [], next_token_id := 2,
            next_audit_id := 5 },
    faults := [] }

/-- An active, unexpired token, for the revocation witness. -/
def token_c8 : ApiToken :=
  { id := 1, token_hash := "h8", employee_id := 7, name := "r",
    description := Option.none, is_active := true, is_revoked := false,
    expires_at := Option.none, last_used_at := Option.none,
    permissions := PyVal.dict [], created_by := Option.none, created_at := 0 }

/-- Store holding `token_c8`, no pending faults. -/
def sess_c8 : Sess :=
  { db := { tokens := [token_c8], audit_logs := [], next_token_id := 2,
            next_audit_id := 1 },
    faults := [] }

/-- An active token that expired one second before `now = 0`. -/
def token_c9 : ApiToken :=
  { id := 3, token_hash := "stp_e", employee_id := 7, name := "e",
    description := Option.none, is_active := true, is_revoked := false,
    expires_at := Option.some (-1), last_used_at := Option.none,
    permissions := PyVal.dict [], created_by := Option.none, created_at := 0 }

/-- Store holding the expired-but-active token. -/
def sess_c9 : Sess :=
  { db := { tokens := [token_c9], audit_logs := [], next_token_id := 4,
            next_audit_id := 9 },
    faults := [] }

/-- A token flagged `is_revoked = True` while still `is_active = True` and
unexpired. -/
def token_c10 : ApiToken :=
  { id := 4, token_hash := "stp_r", employee_id := 7, name := "rv",
    description := Option.none, is_active := true, is_revoked := true,
    expires_at := Option.none, last_used_at := Option.none,
    permissions := PyVal.dict [], created_by := Option.none, created_at := 0 }

/-- Store holding the revoked-but-active token. -/
def sess_c10 : Sess :=
  { db := { tokens := [token_c10], audit_logs := [], next_token_id := 5,
            next_audit_id := 2 },
    faults := [] }

/-!
### Helper lemmas
-/

/-- The final shape dispatch of `check_permission` computes `perm_eval`. -/
lemma perm_eval_match (action : String) (w : PyVal) :
    (match w with
      | PyVal.none => Except.ok false
      | PyVal.bool false => Except.ok false
      | PyVal.bool true => Except.ok true
      | PyVal.str s => Except.ok (s == action)
      | PyVal.list items => Except.ok (py_str_in items action)
      | _ => Except.ok false)
      = (Except.ok (perm_eval w action) : Except String Bool) := by
  cases w
  case bool b => cases b <;> rfl
  all_goals rfl

/-- An `admin: True` entry makes `check_permission` grant unconditionally. -/
lemma check_permission_admin (es : List (String × PyVal))
    (resource action : String)
    (hA : PyVal.lookup es "admin" = Option.some (PyVal.bool true)) :
    check_permission (PyVal.dict es) resource action = Except.ok true := by
  simp [check_permission, PyVal.getD, hA, py_is_true]

/-- Without an `admin: True` grant, and with a mapping (or absent) `resources`
zone, `check_permission` returns `perm_eval` of the looked-up resource
value. -/
lemma check_permission_non_admin (es rs : List (String × PyVal))
    (resource action : String)
    (hadmin : PyVal.lookup es "admin" ≠ Option.some (PyVal.bool true))
    (hres : PyVal.lookup es "resources" = Option.some (PyVal.dict rs) ∨
        (PyVal.lookup es "resources" = Option.none ∧ rs = [])) :
    check_permission (PyVal.dict es) resource action
      = Except.ok (perm_eval ((PyVal.lookup rs resource).getD PyVal.none)
          action) := by
  cases hA : PyVal.lookup es "admin" with
  | none =>
      rcases hres with hR | ⟨hR, hrs⟩
      · simp only [check_permission, PyVal.getD, hA, hR]
        cases hv : PyVal.lookup rs resource <;>
          simp [hv, perm_eval_match, perm_eval, py_is_true]
      · subst hrs
        have h0 : PyVal.lookup ([] : List (String × PyVal)) resource
            = Option.none := rfl
        simp only [check_permission, PyVal.getD, hA, hR]
        simp [h0, perm_eval, py_is_true]
  | some a =>
      have ha : ¬ a = PyVal.bool true := fun h => hadmin (by rw [h] at hA; exact hA)
      have hpy : py_is_true a = false := by
        cases a
        case bool b =>
          cases b
          · rfl
          · exact absurd rfl ha
        all_goals rfl
      rcases hres with hR | ⟨hR, hrs⟩
      · simp only [check_permission, PyVal.getD, hA, hR, hpy]
        cases hv : PyVal.lookup rs resource <;>
          simp [hv, perm_eval_match, perm_eval, py_is_true, hpy]
      · subst hrs
        have h0 : PyVal.lookup ([] : List (String × PyVal)) resource
            = Option.none := rfl
        simp only [check_permission, PyVal.getD, hA, hR]
        simp [h0, perm_eval, py_is_true, hpy]

/-- After replacing the row with primary key `tid`, lookup by that key finds
the replacement. -/
lemma find?_update_token (l : List ApiToken) (tid : Nat) (t t' : ApiToken)
    (h : l.find? (fun u => u.id == tid) = Option.some t) (h' : t'.id = tid) :
    (update_token l tid t').find? (fun u => u.id == tid)
      = Option.some t' := by
  induction l with
  | nil => simp [List.find?] at h
  | cons x xs ih =>
      by_cases hx : x.id = tid
      · have hrepl : update_token (x :: xs) tid t'
            = t' :: update_token xs tid t' := by
          simp [update_token, hx]
        rw [hrepl, List.find?_cons_of_pos _ (by simp [h'])]
      · have hrepl : update_token (x :: xs) tid t'
            = x :: update_token xs tid t' := by
          simp [update_token, hx]
        rw [List.find?_cons_of_neg _ (by simp [hx])] at h
        rw [hrepl, List.find?_cons_of_neg _ (by simp [hx])]
        exact ih h

/-- Full effect of `revoke_token` on a fault-free session holding the
token: returns `True`, deactivates the row, appends one `token_revoked`
record, bumps the audit id sequence. -/
lemma revoke_token_found (s : Sess) (tid : Nat) (now : Int) (t : ApiToken)
    (hf : s.faults = [])
    (hfind : s.db.tokens.find? (fun u => u.id == tid) = Option.some t) :
    revoke_token s tid now
      = (true,
         { db := { tokens := update_token s.db.tokens t.id
                       { t with is_active := false },
                   audit_logs := s.db.audit_logs ++
                     [{ id := s.db.next_audit_id, token_id := t.id,
                        action := "token_revoked",
                        ip_address := Option.none,
                        user_agent := Option.none,
                        endpoint := Option.none, success := true,
                        error_message := Option.none,
                        extra_metadata := Option.none, created_at := now }],
                   next_token_id := s.db.next_token_id,
                   next_audit_id := s.db.next_audit_id + 1 },
           faults := [] }) := by
  simp [revoke_token, takeFault, hf, hfind, create_audit_log]

/-!
### The claims
-/

/-- C1: the claim says `Cleanup(d)` deletes exactly the tokens with
`active=false` and `expiresAt` before `now - d` days and returns the count.
The code never deletes anything: the filter
`and_(not ApiToken.is_active, ...)` collapses to the Python constant `False`
(`not` on the truthy column object), so for every store and every threshold
the sweep returns 0 and leaves the database untouched — including, as the
second conjunct evaluates, a store holding a token that is inactive and
31 days expired, which the claim says `Cleanup(30)` must delete. -/
theorem cleanup_expired_tokens_deletes_nothing :
    (∀ (s : Sess) (days_inactive now : Int),
        (cleanup_expired_tokens s days_inactive now).1 = 0 ∧
        ((cleanup_expired_tokens s days_inactive now).2).db = s.db) ∧
    cleanup_expired_tokens sess_c1 30 0 = (0, sess_c1) := by
  refine ⟨fun s days_inactive now => ?_, rfl⟩
  have hdb : (takeFault s).2.db = s.db := by
    cases hsf : s.faults <;> simp [takeFault, hsf]
  by_cases h : (takeFault s).1 <;>
    simp [cleanup_expired_tokens, h, hdb]

/-- C2 counterexample: validating a digest that matches no active token on an
empty store returns NotFound but writes zero audit records, not the claimed
"exactly one `token_validation_failed` record with no tokenId":
`_create_audit_log` returns `None` without inserting whenever `token_id` is
`None` (lines 426-428; the `token_id` column is non-nullable). -/
theorem validate_unknown_digest_counterexample :
    (validate_token (fun x => x) sess_empty "stp_abc" Option.none Option.none
        Option.none 0).1 = Option.none ∧
    ((validate_token (fun x => x) sess_empty "stp_abc" Option.none Option.none
        Option.none 0).2).db.audit_logs.length = 0 :=
  ⟨rfl, rfl⟩

/-- C2 amended: for every raw secret whose digest matches no active stored
token, `validate_token` returns NotFound and writes no audit record at all —
the attempted orphan entry is dropped by `_create_audit_log`, leaving the
session unchanged. -/
theorem validate_unknown_digest_no_audit (hash_token : String → String)
    (s : Sess) (raw_token : String)
    (ip_address user_agent endpoint : Option String) (now : Int)
    (hf : s.faults = [])
    (hfind : s.db.tokens.find?
        (fun t => t.token_hash == hash_token raw_token && t.is_active)
        = Option.none) :
    validate_token hash_token s raw_token ip_address user_agent endpoint now
      = (Option.none, s) := by
  simp [validate_token, takeFault, hf, hfind, create_audit_log]

/-- C2 witness: the amended statement evaluated on the empty store. -/
theorem validate_unknown_digest_no_audit_witness :
    validate_token (fun x => x) sess_empty "stp_zzz" Option.none Option.none
        Option.none 0 = (Option.none, sess_empty) :=
  validate_unknown_digest_no_audit (fun x => x) sess_empty "stp_zzz"
    Option.none Option.none Option.none 0 rfl rfl

/-- C3 counterexample: with the token-insert commit succeeding and the
audit-insert commit failing, `create_token` still returns the raw secret and
the token is persisted, but no `token_created` audit record exists — the
operation is not the claimed single transactional unit, and a token can
exist without its `token_created` record. -/
theorem create_token_audit_fault_counterexample :
    ((create_token (fun x => x) sess_c3 7 "n" Option.none Option.none
        Option.none Option.none "stp_x" 0).1).isSome = true ∧
    ((create_token (fun x => x) sess_c3 7 "n" Option.none Option.none
        Option.none Option.none "stp_x" 0).2).db.tokens.length = 1 ∧
    ((create_token (fun x => x) sess_c3 7 "n" Option.none Option.none
        Option.none Option.none "stp_x" 0).2).db.audit_logs = [] :=
  ⟨rfl, rfl, rfl⟩

/-- C3 amended: `create_token` is two separate commits, not one transactional
unit.  If the token-insert commit faults, it returns `None` and the database
is untouched (no token, no audit record); if it succeeds, an active,
non-revoked token whose stored digest is `hash_token raw_token` is appended
and the pair is returned — and the `token_created` record is appended only
when the second, audit commit also succeeds, otherwise the token is left
without it. -/
theorem create_token_split_commits (hash_token : String → String) (s : Sess)
    (employee_id : Int) (name : String) (description : Option String)
    (expires_in_days : Option Int) (permissions : Option PyVal)
    (created_by : Option Int) (raw_token : String) (now : Int)
    (f1 f2 : Bool) (hf : s.faults = [f1, f2]) :
    (f1 = true →
        (create_token hash_token s employee_id name description
            expires_in_days permissions created_by raw_token now).1
          = Option.none ∧
        ((create_token hash_token s employee_id name description
            expires_in_days permissions created_by raw_token now).2).db
          = s.db) ∧
    (f1 = false →
        ∃ tok,
          (create_token hash_token s employee_id name description
              expires_in_days permissions created_by raw_token now).1
            = Option.some (raw_token, tok) ∧
          tok.token_hash = hash_token raw_token ∧
          tok.is_active = true ∧ tok.is_revoked = false ∧
          ((create_token hash_token s employee_id name description
              expires_in_days permissions created_by raw_token
              now).2).db.tokens = s.db.tokens ++ [tok] ∧
          (f2 = true →
              ((create_token hash_token s employee_id name description
                  expires_in_days permissions created_by raw_token
                  now).2).db.audit_logs = s.db.audit_logs) ∧
          (f2 = false →
              ∃ log,
                ((create_token hash_token s employee_id name description
                    expires_in_days permissions created_by raw_token
                    now).2).db.audit_logs = s.db.audit_logs ++ [log] ∧
                log.action = "token_created" ∧ log.token_id = tok.id ∧
                log.success = true)) := by
  cases f1 <;> cases f2 <;>
    simp [create_token, takeFault, hf, create_audit_log]

/-- C3 witness: the split-commit characterisation applied to a session whose
first commit faults. -/
theorem create_token_split_commits_witness :
    (create_token (fun x => x) sess_c3w 7 "n" Option.none Option.none
        Option.none Option.none "stp_w" 0).1 = Option.none ∧
    ((create_token (fun x => x) sess_c3w 7 "n" Option.none Option.none
        Option.none Option.none "stp_w" 0).2).db = sess_c3w.db :=
  (create_token_split_commits (fun x => x) sess_c3w 7 "n" Option.none
      Option.none Option.none Option.none "stp_w" 0 true false rfl).1 rfl

/-- C4 counterexample: a permissions document whose `resources` key holds a
non-mapping value makes `check_permission` raise `AttributeError`
(`resources.get(resource)` on a non-dict), instead of evaluating to deny —
the evaluator is not total on malformed documents of every shape. -/
theorem check_permission_nondict_resources_raises :
    check_permission (PyVal.dict [("resources", PyVal.int 0)])
        "employees" "read" = Except.error "AttributeError" := rfl

/-- C4 amended: whenever the `resources` entry of the permissions document,
if present, is itself a mapping, `check_permission` is total and returns a
boolean; and under the same shape condition every resource value that is
none of the recognised shapes (boolean, string, list, `None`) evaluates to
deny.  A non-mapping `resources` value, however, raises instead of
denying. -/
theorem check_permission_total_when_resources_mapping
    (es : List (String × PyVal)) (resource action : String)
    (hres : ∀ v, PyVal.lookup es "resources" = Option.some v →
        v.isDict = true) :
    (∃ b, check_permission (PyVal.dict es) resource action = Except.ok b) ∧
    (∀ rs v, PyVal.lookup es "admin" ≠ Option.some (PyVal.bool true) →
        PyVal.lookup es "resources" = Option.some (PyVal.dict rs) →
        PyVal.lookup rs resource = Option.some v →
        v.isPermShape = false →
        check_permission (PyVal.dict es) resource action
          = Except.ok false) := by
  constructor
  · by_cases hA : PyVal.lookup es "admin" = Option.some (PyVal.bool true)
    · exact ⟨true, check_permission_admin es resource action hA⟩
    · cases hR : PyVal.lookup es "resources" with
      | none =>
          exact ⟨_, check_permission_non_admin es [] resource action hA
            (Or.inr ⟨hR, rfl⟩)⟩
      | some v =>
          have hd := hres v hR
          cases v <;> simp [PyVal.isDict] at hd
          exact ⟨_, check_permission_non_admin es _ resource action hA
            (Or.inl hR)⟩
  · intro rs v hadmin hR hv hshape
    have key := check_permission_non_admin es rs resource action hadmin
      (Or.inl hR)
    rw [key, hv]
    cases v <;> simp [PyVal.isPermShape] at hshape <;> simp [perm_eval]

/-- C4 witness: a malformed resource value of dict shape (neither boolean,
string nor list) evaluates to deny under a well-shaped `resources`
mapping. -/
theorem check_permission_total_witness :
    check_permission
        (PyVal.dict [("resources",
            PyVal.dict [("employees", PyVal.int 3)])])
        "employees" "read" = Except.ok false :=
  (check_permission_total_when_resources_mapping
      [("resources", PyVal.dict [("employees", PyVal.int 3)])]
      "employees" "read"
      (fun v hv => by injection hv with h; subst h; rfl)).2
    [("employees", PyVal.int 3)] (PyVal.int 3)
    (fun hc => nomatch hc) rfl rfl rfl

/-- C5 counterexample: a run of `validate_token` whose storage layer faults
returns exactly the same value (`None`) as a fault-free run on a digest that
was never issued — the storage fault is not surfaced as a failure value
distinct from "invalid credential" (lines 161-163 catch `SQLAlchemyError`
and return `None`). -/
theorem validate_fault_equals_notfound_counterexample :
    (validate_token (fun x => x) sess_fault1 "stp_t" Option.none Option.none
        Option.none 0).1
      = (validate_token (fun x => x) sess_empty "stp_t" Option.none
          Option.none Option.none 0).1 ∧
    (validate_token (fun x => x) sess_fault1 "stp_t" Option.none Option.none
        Option.none 0).1 = Option.none :=
  ⟨rfl, rfl⟩

/-- C5 amended: when the lookup faults, `validate_token` swallows the error
and returns `None` — the same value as the not-found result — leaving the
database unchanged; the caller cannot distinguish a storage fault from a bad
token through the returned value. -/
theorem validate_storage_fault_returns_none (hash_token : String → String)
    (s : Sess) (raw_token : String)
    (ip_address user_agent endpoint : Option String) (now : Int)
    (rest : List Bool) (hf : s.faults = true :: rest) :
    (validate_token hash_token s raw_token ip_address user_agent endpoint
        now).1 = Option.none ∧
    ((validate_token hash_token s raw_token ip_address user_agent endpoint
        now).2).db = s.db := by
  simp [validate_token, takeFault, hf]

/-- C5 witness: the fault-run statement evaluated on the empty store. -/
theorem validate_storage_fault_returns_none_witness :
    (validate_token (fun x => x) sess_fault1 "stp_q" Option.none Option.none
        Option.none 0).1 = Option.none ∧
    ((validate_token (fun x => x) sess_fault1 "stp_q" Option.none Option.none
        Option.none 0).2).db = sess_fault1.db :=
  validate_storage_fault_returns_none (fun x => x) sess_fault1 "stp_q"
    Option.none Option.none Option.none 0 [] rfl

/-- C6: the six-step evaluation of `check_permission`, for a permissions
document whose `resources` zone is a mapping (`rs`) or absent (then `rs`
is empty): `admin: True` grants; otherwise an absent, `None` or `False`
resource entry denies, `True` grants, a string grants exactly on equality
with the action, and a list grants exactly on membership of the action. -/
theorem check_permission_six_steps (es rs : List (String × PyVal))
    (resource action : String)
    (hres : PyVal.lookup es "resources" = Option.some (PyVal.dict rs) ∨
        (PyVal.lookup es "resources" = Option.none ∧ rs = [])) :
    (PyVal.lookup es "admin" = Option.some (PyVal.bool true) →
        check_permission (PyVal.dict es) resource action = Except.ok true) ∧
    (PyVal.lookup es "admin" ≠ Option.some (PyVal.bool true) →
      ((PyVal.lookup rs resource = Option.none ∨
        PyVal.lookup rs resource = Option.some PyVal.none ∨
        PyVal.lookup rs resource = Option.some (PyVal.bool false)) →
          check_permission (PyVal.dict es) resource action
            = Except.ok false) ∧
      (PyVal.lookup rs resource = Option.some (PyVal.bool true) →
          check_permission (PyVal.dict es) resource action
            = Except.ok true) ∧
      (∀ sv, PyVal.lookup rs resource = Option.some (PyVal.str sv) →
          check_permission (PyVal.dict es) resource action
            = Except.ok (sv == action)) ∧
      (∀ items, PyVal.lookup rs resource = Option.some (PyVal.list items) →
          check_permission (PyVal.dict es) resource action
            = Except.ok (py_str_in items action))) := by
  refine ⟨fun hA => check_permission_admin es resource action hA,
    fun hadmin => ?_⟩
  have key := check_permission_non_admin es rs resource action hadmin hres
  refine ⟨?_, ?_, ?_, ?_⟩
  · rintro (hv | hv | hv) <;> simp [key, hv, perm_eval]
  · intro hv; simp [key, hv, perm_eval]
  · intro sv hv; simp [key, hv, perm_eval]
  · intro items hv; simp [key, hv, perm_eval]

/-- C6 witness: the spec's own examples — an admin document grants any
action, and the list document `{"employees": ["read", "list"]}` grants
`read`. -/
theorem check_permission_six_steps_witness :
    check_permission (PyVal.dict [("admin", PyVal.bool true)])
        "employees" "write" = Except.ok true ∧
    check_permission (PyVal.dict [("admin", PyVal.bool false),
        ("resources", PyVal.dict [("employees",
            PyVal.list [PyVal.str "read", PyVal.str "list"])])])
        "employees" "read" = Except.ok true := by
  constructor
  · exact (check_permission_six_steps [("admin", PyVal.bool true)] []
      "employees" "write" (Or.inr ⟨rfl, rfl⟩)).1 rfl
  · have h := ((check_permission_six_steps
        [("admin", PyVal.bool false),
         ("resources", PyVal.dict [("employees",
             PyVal.list [PyVal.str "read", PyVal.str "list"])])]
        [("employees", PyVal.list [PyVal.str "read", PyVal.str "list"])]
        "employees" "read" (Or.inl rfl)).2
        (fun hc => nomatch hc)).2.2.2
        [PyVal.str "read", PyVal.str "list"] rfl
    rw [h]
    rfl

/-- C7: extension behaves as claimed — a bounded token's expiry compounds
(`1000` becomes `1000 + 5·86400`), an unbounded token gets `now + 5·86400`,
and a nonexistent id yields NotFound — but the persisted `token_extended`
audit record does not include the day count: the repository passes it as
`metadata=`, which is not a mapped column of `ApiTokenAuditLog` (the payload
column is `extra_metadata`), so the stored record's `extra_metadata` is
null, as the second conjunct evaluates. -/
theorem extend_token_audit_metadata_dropped :
    ((extend_token sess_c7 1 5 0).1).map (fun t => t.expires_at)
      = Option.some (Option.some (1000 + timedelta_days 5)) ∧
    ((extend_token sess_c7 1 5 0).2).db.audit_logs.map
        (fun a => (a.action, a.success, a.extra_metadata))
      = [("token_extended", true, Option.none)] ∧
    ((extend_token sess_c7n 1 5 100).1).map (fun t => t.expires_at)
      = Option.some (Option.some (100 + timedelta_days 5)) ∧
    (extend_token sess_c7 99 5 0).1 = Option.none :=
  ⟨rfl, rfl, rfl, rfl⟩

/-- C8: on a fault-free session, `revoke_token` of a nonexistent id returns
`False` and leaves the session untouched; of an existing id it returns
`True`, sets the row's `is_active` to `False`, appends one `token_revoked`
audit record — and a second call on the now-inactive token still returns
`True` and appends one more audit record (idempotent success, repeated
logging). -/
theorem revoke_token_spec (s : Sess) (token_id : Nat) (now : Int)
    (hf : s.faults = []) :
    (s.db.tokens.find? (fun u => u.id == token_id) = Option.none →
        revoke_token s token_id now = (false, s)) ∧
    (∀ t, s.db.tokens.find? (fun u => u.id == token_id) = Option.some t →
        (revoke_token s token_id now).1 = true ∧
        ((revoke_token s token_id now).2).db.tokens.find?
            (fun u => u.id == token_id)
          = Option.some { t with is_active := false } ∧
        ((revoke_token s token_id now).2).db.audit_logs
          = s.db.audit_logs ++
            [{ id := s.db.next_audit_id, token_id := t.id,
               action := "token_revoked", ip_address := Option.none,
               user_agent := Option.none, endpoint := Option.none,
               success := true, error_message := Option.none,
               extra_metadata := Option.none, created_at := now }] ∧
        (revoke_token (revoke_token s token_id now).2 token_id now).1
          = true ∧
        ((revoke_token (revoke_token s token_id now).2 token_id
            now).2).db.audit_logs.length
          = ((revoke_token s token_id now).2).db.audit_logs.length + 1) := by
  constructor
  · intro hfind
    simp [revoke_token, takeFault, hf, hfind]
  · intro t hfind
    have htid : t.id = token_id := by
      have := List.find?_some hfind
      simpa using this
    have h1 := revoke_token_found s token_id now t hf hfind
    have hfind2 : (update_token s.db.tokens t.id
          { t with is_active := false }).find? (fun u => u.id == token_id)
        = Option.some { t with is_active := false } := by
      rw [htid]
      exact find?_update_token s.db.tokens token_id t _ hfind rfl
    rw [h1]
    have h2 := revoke_token_found
      ⟨⟨update_token s.db.tokens t.id { t with is_active := false },
        s.db.audit_logs ++
          [{ id := s.db.next_audit_id, token_id := t.id,
             action := "token_revoked", ip_address := Option.none,
             user_agent := Option.none, endpoint := Option.none,
             success := true, error_message := Option.none,
             extra_metadata := Option.none, created_at := now }],
        s.db.next_token_id, s.db.next_audit_id + 1⟩, []⟩
      token_id now { t with is_active := false } rfl hfind2
    rw [h2]
    refine ⟨rfl, hfind2, rfl, rfl, by simp⟩

/-- C8 witness: revoking the stored token twice succeeds both times. -/
theorem revoke_token_spec_witness :
    (revoke_token sess_c8 1 0).1 = true ∧
    (revoke_token (revoke_token sess_c8 1 0).2 1 0).1 = true :=
  ⟨((revoke_token_spec sess_c8 1 0 rfl).2 token_c8 rfl).1,
   ((revoke_token_spec sess_c8 1 0 rfl).2 token_c8 rfl).2.2.2.1⟩

/-- C9: validating an active token whose expiry is in the past returns
NotFound, appends exactly one failed audit record attributed to the token
with the "expired" reason (`"Токен истек"`), and leaves the `tokens` table —
every stored field of every token — unchanged: no deactivation, no
`last_used_at` update. -/
theorem validate_expired_token_readonly (hash_token : String → String)
    (s : Sess) (raw_token : String)
    (ip_address user_agent endpoint : Option String) (now : Int)
    (t : ApiToken) (hf : s.faults = [])
    (hfind : s.db.tokens.find?
        (fun u => u.token_hash == hash_token raw_token && u.is_active)
        = Option.some t)
    (hexp : token_expired t now = true) :
    (validate_token hash_token s raw_token ip_address user_agent endpoint
        now).1 = Option.none ∧
    ((validate_token hash_token s raw_token ip_address user_agent endpoint
        now).2).db.tokens = s.db.tokens ∧
    ((validate_token hash_token s raw_token ip_address user_agent endpoint
        now).2).db.audit_logs = s.db.audit_logs ++
      [{ id := s.db.next_audit_id, token_id := t.id,
         action := "token_validation_failed",
         ip_address := ip_address, user_agent := user_agent,
         endpoint := endpoint, success := false,
         error_message := Option.some "Токен истек",
         extra_metadata := Option.none, created_at := now }] := by
  refine ⟨?_, ?_, ?_⟩ <;>
    simp [validate_token, takeFault, hf, hfind, hexp, create_audit_log]

/-- C9 witness: the expired-token statement evaluated on a store holding a
token that expired one second before now. -/
theorem validate_expired_token_readonly_witness :
    (validate_token (fun x => x) sess_c9 "stp_e" Option.none Option.none
        Option.none 0).1 = Option.none ∧
    ((validate_token (fun x => x) sess_c9 "stp_e" Option.none Option.none
        Option.none 0).2).db.tokens = sess_c9.db.tokens ∧
    ((validate_token (fun x => x) sess_c9 "stp_e" Option.none Option.none
        Option.none 0).2).db.audit_logs = sess_c9.db.audit_logs ++
      [{ id := sess_c9.db.next_audit_id, token_id := token_c9.id,
         action := "token_validation_failed",
         ip_address := Option.none, user_agent := Option.none,
         endpoint := Option.none, success := false,
         error_message := Option.some "Токен истек",
         extra_metadata := Option.none, created_at := 0 }] :=
  validate_expired_token_readonly (fun x => x) sess_c9 "stp_e" Option.none
    Option.none Option.none 0 token_c9 rfl rfl rfl

/-- C10: the validation query filters on the digest and `is_active` only —
a token with `is_revoked = True` but `is_active = True` and no (or future)
expiry validates successfully and is returned (with `last_used_at` set);
the `revoked` flag is never consulted. -/
theorem validate_ignores_revoked_flag (hash_token : String → String)
    (s : Sess) (raw_token : String)
    (ip_address user_agent endpoint : Option String) (now : Int)
    (t : ApiToken) (hf : s.faults = [])
    (hfind : s.db.tokens.find?
        (fun u => u.token_hash == hash_token raw_token && u.is_active)
        = Option.some t)
    (hrev : t.is_revoked = true)
    (hexp : token_expired t now = false) :
    (validate_token hash_token s raw_token ip_address user_agent endpoint
        now).1 = Option.some { t with last_used_at := Option.some now } := by
  simp [validate_token, takeFault, hf, hfind, hexp]

/-- C10 witness: the revoked-but-active token validates successfully. -/
theorem validate_ignores_revoked_flag_witness :
    (validate_token (fun x => x) sess_c10 "stp_r" Option.none Option.none
        Option.none 0).1
      = Option.some { token_c10 with last_used_at := Option.some 0 } :=
  validate_ignores_revoked_flag (fun x => x) sess_c10 "stp_r" Option.none
    Option.none Option.none 0 token_c10 rfl rfl rfl rfl

end StpDatabase
